import Mathlib

/-!
Shallow embedding of the cprior library core: the `BinomialModel` conjugate
update from `cprior/binomial.py` and the Normal-inverse-gamma distribution,
posterior model and A/B comparator from `cprior/cdist/normal_inverse_gamma.py`.

Numbers are modelled as rationals.  The NaN sentinel returned by undefined
moments is modelled as `none : Option ℚ`.  Python exceptions are modelled with
`Except PyErr`.  Resolution of a free Python name is modelled explicitly by a
lookup in the list of names bound in the enclosing method scope, so that a
reference to an undefined name (`neta`, `sig2`, `sigA`) evaluates to a
`NameError`, exactly as CPython resolves names at run time.

Transcendental primitives (normal CDF, regularized incomplete beta, exp, log,
log-gamma, hypot, sqrt) are external collaborators of the library (scipy); they
are passed in as an abstract `NumPrims` record of rational-valued functions.
The pseudo-random source is likewise passed in as an abstract deterministic
function `Sampler` of the distribution parameters, the draw count and the seed.
-/

namespace CPrior

/-- Python exception outcomes relevant to the embedded code. -/
inductive PyErr where
  | nameError (name : String)
  | typeError
  | valueError
  | unsupportedConfiguration
deriving DecidableEq, Repr

/-- Python run-time value bound to a local name: a number, or an opaque
non-numeric object (such as `self` or an argument string). -/
inductive PyVal where
  | num (q : ℚ)
  | obj
deriving DecidableEq, Repr

/-- CPython name resolution over the names bound in the enclosing scope: an
unbound name is a `NameError` naming the offending identifier. -/
def lookupName (scope : List (String × PyVal)) (name : String) :
    Except PyErr PyVal :=
  match scope.find? (fun p => p.1 == name) with
  | some p => Except.ok p.2
  | none => Except.error (PyErr.nameError name)

/-- Resolve a name that the surrounding expression consumes as a number. -/
def lookupNum (scope : List (String × PyVal)) (name : String) :
    Except PyErr ℚ := do
  match ← lookupName scope name with
  | PyVal.num q => pure q
  | PyVal.obj => Except.error PyErr.typeError

/-! ## `cprior/binomial.py`: `BinomialModel` -/

/-- State of a `BinomialModel`: the number of trials `m` and the mutable
posterior hyperparameters (`_alpha_posterior`, `_beta_posterior`).  The prior
fields play no role in the embedded operations and are omitted. -/
structure BinomialModel where
  m : ℚ
  alpha_posterior : ℚ
  beta_posterior : ℚ
deriving DecidableEq, Repr

/-- Embeds `BinomialModel.__init__(self, m, alpha=1, beta=1)`.  Its body is
`super().__init__(alpha, neta)`: the second argument is the free name `neta`,
while the method scope binds only `self`, `m`, `alpha` and `beta`.  The
`BetaModel` base initializer (not under `src/`) would set the posterior
hyperparameters equal to the priors, per the spec; it is only reached if both
arguments evaluate. -/
def BinomialModel.init (m alpha beta : ℚ) : Except PyErr BinomialModel := do
  let scope := [("self", PyVal.obj), ("m", PyVal.num m),
    ("alpha", PyVal.num alpha), ("beta", PyVal.num beta)]
  let neta ← lookupNum scope "neta"
  pure { m := m, alpha_posterior := alpha, beta_posterior := neta }

/-- Embeds `BinomialModel.update(self, data)`:
`n = len(data)`, `n_success = np.sum(data)`,
`self._alpha_posterior += n_success`,
`self._beta_posterior += self.m * n - n_success`.
No validation is performed on `data`. -/
def BinomialModel.update (self : BinomialModel) (data : List ℤ) :
    BinomialModel :=
  let n : ℤ := data.length
  let n_success : ℤ := data.sum
  { self with
    alpha_posterior := self.alpha_posterior + (n_success : ℚ)
    beta_posterior := self.beta_posterior + self.m * (n : ℚ) - (n_success : ℚ) }

/-! ## `cprior/cdist/normal_inverse_gamma.py`: the distribution -/

/-- External numeric primitives consumed by the library (scipy special
functions and friends), abstracted as rational-valued functions. -/
structure NumPrims where
  exp : ℚ → ℚ
  log : ℚ → ℚ
  gammaln : ℚ → ℚ
  log_ndtr : ℚ → ℚ
  ndtr : ℚ → ℚ
  betainc : ℚ → ℚ → ℚ → ℚ
  hypot : ℚ → ℚ → ℚ
  sqrt : ℚ → ℚ

/-- Parameters of the `NormalInverseGamma` distribution object. -/
structure NormalInverseGamma where
  loc : ℚ
  variance_scale : ℚ
  shape : ℚ
  scale : ℚ
deriving DecidableEq, Repr

/-- Embeds `NormalInverseGamma.__init__`: the constructor validates
`variance_scale > 0`, `shape > 0` and `scale > 0` in that order and raises
`ValueError` otherwise. -/
def NormalInverseGamma.make (loc variance_scale shape scale : ℚ) :
    Except PyErr NormalInverseGamma :=
  if variance_scale ≤ 0 then Except.error PyErr.valueError
  else if shape ≤ 0 then Except.error PyErr.valueError
  else if scale ≤ 0 then Except.error PyErr.valueError
  else Except.ok
    { loc := loc, variance_scale := variance_scale, shape := shape,
      scale := scale }

/-- Embeds `NormalInverseGamma.mean`: `x_mean = self.loc`; `sig2_mean` is
`scale / (shape - 1)` when `shape > 1` and the NaN sentinel otherwise. -/
def NormalInverseGamma.mean (self : NormalInverseGamma) : ℚ × Option ℚ :=
  let x_mean := self.loc
  let sig2_mean :=
    if 1 < self.shape then some (self.scale / (self.shape - 1)) else none
  (x_mean, sig2_mean)

/-- Embeds `NormalInverseGamma.var`: `x_var = scale / (shape - 1) /
variance_scale` when `shape > 1`, else NaN; `sig2_var = scale ** 2 /
(shape - 1) ** 2 / (shape - 2)` when `shape > 2`, else NaN. -/
def NormalInverseGamma.var (self : NormalInverseGamma) :
    Option ℚ × Option ℚ :=
  let x_var :=
    if 1 < self.shape then
      some (self.scale / (self.shape - 1) / self.variance_scale)
    else none
  let sig2_var :=
    if 2 < self.shape then
      some (self.scale ^ 2 / (self.shape - 1) ^ 2 / (self.shape - 2))
    else none
  (x_var, sig2_var)

/-- Embeds `NormalInverseGamma._check_input` restricted to scalar inputs: the
shapes always agree, and `sig2 <= 0` raises `ValueError`. -/
def NormalInverseGamma.check_input (self : NormalInverseGamma) (x sig2 : ℚ) :
    Except PyErr (ℚ × ℚ) :=
  if sig2 ≤ 0 then Except.error PyErr.valueError else Except.ok (x, sig2)

/-- Embeds `NormalInverseGamma.logcdf(self, x, sig2)` for scalar inputs:
`xu = (variance_scale / sig2) ** 0.5 * (x - loc)`;
`t0 = -scale / sig2 + shape * log(scale)`;
`t1 = -(shape + 1) * log(sig2) - gammaln(shape)`;
`t2 = log_ndtr(xu)`; result `t0 + t1 + t2`. -/
def NormalInverseGamma.logcdf (prims : NumPrims) (self : NormalInverseGamma)
    (x sig2 : ℚ) : Except PyErr ℚ := do
  let (x, sig2) ← self.check_input x sig2
  let xu := prims.sqrt (self.variance_scale / sig2) * (x - self.loc)
  let t0 := -self.scale / sig2 + self.shape * prims.log self.scale
  let t1 := -(self.shape + 1) * prims.log sig2 - prims.gammaln self.shape
  let t2 := prims.log_ndtr xu
  pure (t0 + t1 + t2)

/-- Embeds `NormalInverseGamma.cdf(self, x, sig2)`:
`np.exp(self.logcdf(x, sig2))`. -/
def NormalInverseGamma.cdf (prims : NumPrims) (self : NormalInverseGamma)
    (x sig2 : ℚ) : Except PyErr ℚ := do
  let l ← self.logcdf prims x sig2
  pure (prims.exp l)

/-! ## `NormalInverseGammaModel` -/

/-- Posterior state of a `NormalInverseGammaModel`: the four mutable posterior
hyperparameters exposed by the `loc_posterior`, `variance_scale_posterior`,
`shape_posterior` and `scale_posterior` properties.  The constructor
initializes them to the prior values and validates positivity, so every
constructed model satisfies the positivity invariant. -/
structure NormalInverseGammaModel where
  loc_posterior : ℚ
  variance_scale_posterior : ℚ
  shape_posterior : ℚ
  scale_posterior : ℚ
deriving DecidableEq, Repr

/-- Positivity invariant established by `NormalInverseGammaModel.__init__` on
the posterior hyperparameters. -/
def NormalInverseGammaModel.valid (self : NormalInverseGammaModel) : Prop :=
  0 < self.variance_scale_posterior ∧ 0 < self.shape_posterior ∧
    0 < self.scale_posterior

instance (self : NormalInverseGammaModel) : Decidable self.valid := by
  unfold NormalInverseGammaModel.valid; infer_instance

/-- Embeds the expression `NormalInverseGamma(loc=self._loc_posterior,
variance_scale=self._variance_scale_posterior, shape=self._shape_posterior,
scale=self._scale_posterior)` that every `NormalInverseGammaModel` method
builds before delegating. -/
def NormalInverseGammaModel.posteriorDist (self : NormalInverseGammaModel) :
    Except PyErr NormalInverseGamma :=
  NormalInverseGamma.make self.loc_posterior self.variance_scale_posterior
    self.shape_posterior self.scale_posterior

/-- Embeds `NormalInverseGammaModel.cdf(self, x)`.  The body evaluates
`NormalInverseGamma(...).cdf(x, sig2)`: the distribution object is constructed
first, then the call arguments are evaluated left to right; `x` is a bound
parameter but `sig2` is a free name in a scope binding only `self` and `x`. -/
def NormalInverseGammaModel.cdf (prims : NumPrims)
    (self : NormalInverseGammaModel) (x : ℚ) : Except PyErr ℚ := do
  let d ← self.posteriorDist
  let sig2 ← lookupNum [("self", PyVal.obj), ("x", PyVal.num x)] "sig2"
  d.cdf prims x sig2

/-- Deterministic pseudo-random source: given the distribution parameters, the
number of draws and the optional seed, produces the list of `(x, sig2)`
draws.  This models `NormalInverseGamma.rvs` being a deterministic function of
the distribution and `random_state`. -/
abbrev Sampler : Type := NormalInverseGamma → ℕ → Option ℕ → List (ℚ × ℚ)

/-- Embeds `NormalInverseGammaModel.rvs(self, size, random_state)`: constructs
the posterior `NormalInverseGamma` (validating its parameters) and draws from
it with the given size and seed. -/
def NormalInverseGammaModel.rvs (sampler : Sampler)
    (self : NormalInverseGammaModel) (size : ℕ) (random_state : Option ℕ) :
    Except PyErr (List (ℚ × ℚ)) := do
  let d ← self.posteriorDist
  pure (sampler d size random_state)

/-! ## `NormalInverseGammaABTest` -/

/-- Computation method argument: the source strings `"exact"` and `"MC"`. -/
inductive Method where
  | exact
  | MC
deriving DecidableEq, Repr

/-- Variant argument: the source strings `"A"`, `"B"` and the `else` branch
(`"all"`, called `both` in the spec). -/
inductive Variant where
  | A
  | B
  | all
deriving DecidableEq, Repr

/-- Return value of a comparator operation: the Python `None` that a function
returns when it falls off the end of its body, a 2-tuple, or a 4-tuple. -/
inductive PyRet where
  | pyNone
  | pair (x y : ℚ)
  | quad (x y z w : ℚ)
deriving DecidableEq, Repr

/-- Modelled from the spec: `check_ab_method` from `cprior/cdist/utils.py` is
not under `src/`.  The spec's validation rule says a `lift > 0` together with
`method = exact` is invalid and fails with `UnsupportedConfiguration`;
membership of `method` and `variant` in their option sets is enforced here by
the enumeration types. -/
def check_ab_method (method : Method) (variant : Variant) (lift : ℚ) :
    Except PyErr Unit :=
  if 0 < lift ∧ method = Method.exact then
    Except.error PyErr.unsupportedConfiguration
  else Except.ok ()

/-- State of a `NormalInverseGammaABTest`: the two referenced models, the
Monte Carlo draw count and the optional seed, as stored by the `BayesABTest`
base initializer. -/
structure NormalInverseGammaABTest where
  modelA : NormalInverseGammaModel
  modelB : NormalInverseGammaModel
  simulations : ℕ
  random_state : Option ℕ
deriving DecidableEq, Repr

/-- Mean of a numpy boolean array: the fraction of `True` entries. -/
def boolMean (l : List Bool) : ℚ := ((l.countP id : ℕ) : ℚ) / (l.length : ℚ)

/-- Mean of a numpy numeric array. -/
def ratMean (l : List ℚ) : ℚ := l.sum / (l.length : ℚ)

/-- Elementwise `(u > v + lift).mean()` on two columns. -/
def fracGreater (u v : List ℚ) (lift : ℚ) : ℚ :=
  boolMean (List.zipWith (fun a b => decide (b + lift < a)) u v)

/-- Elementwise `np.maximum(u - v - lift, 0)` on two columns. -/
def lossColumn (u v : List ℚ) (lift : ℚ) : List ℚ :=
  List.zipWith (fun a b => max (a - b - lift) 0) u v

/-- Local scope of the `method == "exact"` branch of
`NormalInverseGammaABTest.probability` (and of `expected_loss`): the
arguments `method`, `variant`, `lift`, the bound `self`, and the eight
posterior hyperparameters read from the two models.  `sigA` and `sigB` are
never assigned. -/
def exactScope (lift muA laA aA bA muB laB aB bB : ℚ) :
    List (String × PyVal) :=
  [("self", PyVal.obj), ("method", PyVal.obj), ("variant", PyVal.obj),
   ("lift", PyVal.num lift),
   ("muA", PyVal.num muA), ("laA", PyVal.num laA), ("aA", PyVal.num aA),
   ("bA", PyVal.num bA),
   ("muB", PyVal.num muB), ("laB", PyVal.num laB), ("aB", PyVal.num aB),
   ("bB", PyVal.num bB)]

/-- Embeds `NormalInverseGammaABTest.probability(self, method, variant,
lift)`.  The first statement is the `check_ab_method` validation.  The exact
branch reads the eight posterior hyperparameters and, per variant, evaluates
`stats.norm.cdf((muA - muB) / np.hypot(sigA, sigB))` — whose inner names
`sigA`, `sigB` are resolved against the local scope — followed by the
regularized incomplete beta probability for the variance component.  The MC
branch draws from both models with `self.simulations` and
`self.random_state`, splits the columns, and returns the empirical exceedance
fractions. -/
def NormalInverseGammaABTest.probability (prims : NumPrims)
    (sampler : Sampler) (self : NormalInverseGammaABTest) (method : Method)
    (variant : Variant) (lift : ℚ) : Except PyErr PyRet := do
  check_ab_method method variant lift
  match method with
  | Method.exact =>
    let muA := self.modelA.loc_posterior
    let laA := self.modelA.variance_scale_posterior
    let aA := self.modelA.shape_posterior
    let bA := self.modelA.scale_posterior
    let muB := self.modelB.loc_posterior
    let laB := self.modelB.variance_scale_posterior
    let aB := self.modelB.shape_posterior
    let bB := self.modelB.scale_posterior
    let scope := exactScope lift muA laA aA bA muB laB aB bB
    match variant with
    | Variant.A => do
      let sigA ← lookupNum scope "sigA"
      let sigB ← lookupNum scope "sigB"
      let prob_mean := prims.ndtr ((muA - muB) / prims.hypot sigA sigB)
      let p := bA / (bA + bB)
      let prob_var := prims.betainc aA aB p
      pure (PyRet.pair prob_mean prob_var)
    | Variant.B => do
      let sigA ← lookupNum scope "sigA"
      let sigB ← lookupNum scope "sigB"
      let prob_mean := prims.ndtr ((muB - muA) / prims.hypot sigA sigB)
      let p := bB / (bA + bB)
      let prob_var := prims.betainc aB aA p
      pure (PyRet.pair prob_mean prob_var)
    | Variant.all => do
      let sigA ← lookupNum scope "sigA"
      let sigB ← lookupNum scope "sigB"
      let prob_mean_A := prims.ndtr ((muA - muB) / prims.hypot sigA sigB)
      let prob_var_A := prims.betainc aA aB (bA / (bA + bB))
      let prob_mean_B := prims.ndtr ((muB - muA) / prims.hypot sigA sigB)
      let prob_var_B := prims.betainc aB aA (bB / (bA + bB))
      pure (PyRet.quad prob_mean_A prob_var_A prob_mean_B prob_var_B)
  | Method.MC => do
    let data_A ← self.modelA.rvs sampler self.simulations self.random_state
    let data_B ← self.modelB.rvs sampler self.simulations self.random_state
    let xA := data_A.map Prod.fst
    let sig2A := data_A.map Prod.snd
    let xB := data_B.map Prod.fst
    let sig2B := data_B.map Prod.snd
    match variant with
    | Variant.A =>
      pure (PyRet.pair (fracGreater xA xB lift) (fracGreater sig2A sig2B lift))
    | Variant.B =>
      pure (PyRet.pair (fracGreater xB xA lift) (fracGreater sig2B sig2A lift))
    | Variant.all =>
      pure (PyRet.quad (fracGreater xA xB lift) (fracGreater sig2A sig2B lift)
        (fracGreater xB xA lift) (fracGreater sig2B sig2A lift))

/-- Embeds `NormalInverseGammaABTest.expected_loss(self, method, variant,
lift)`.  The first statement is the `check_ab_method` validation.  The exact
branch reads the eight posterior hyperparameters and then dispatches on the
variant into three `pass` statements, so the function falls off its end and
returns `None`.  The MC branch draws from both models and returns the
empirical means of the truncated differences. -/
def NormalInverseGammaABTest.expected_loss (sampler : Sampler)
    (self : NormalInverseGammaABTest) (method : Method) (variant : Variant)
    (lift : ℚ) : Except PyErr PyRet := do
  check_ab_method method variant lift
  match method with
  | Method.exact =>
    let _muA := self.modelA.loc_posterior
    let _laA := self.modelA.variance_scale_posterior
    let _aA := self.modelA.shape_posterior
    let _bA := self.modelA.scale_posterior
    let _muB := self.modelB.loc_posterior
    let _laB := self.modelB.variance_scale_posterior
    let _aB := self.modelB.shape_posterior
    let _bB := self.modelB.scale_posterior
    match variant with
    | Variant.A => pure PyRet.pyNone
    | Variant.B => pure PyRet.pyNone
    | Variant.all => pure PyRet.pyNone
  | Method.MC => do
    let data_A ← self.modelA.rvs sampler self.simulations self.random_state
    let data_B ← self.modelB.rvs sampler self.simulations self.random_state
    let xA := data_A.map Prod.fst
    let sig2A := data_A.map Prod.snd
    let xB := data_B.map Prod.fst
    let sig2B := data_B.map Prod.snd
    match variant with
    | Variant.A =>
      pure (PyRet.pair (ratMean (lossColumn xB xA lift))
        (ratMean (lossColumn sig2B sig2A lift)))
    | Variant.B =>
      pure (PyRet.pair (ratMean (lossColumn xA xB lift))
        (ratMean (lossColumn sig2A sig2B lift)))
    | Variant.all =>
      pure (PyRet.quad (ratMean (lossColumn xB xA lift))
        (ratMean (lossColumn sig2B sig2A lift))
        (ratMean (lossColumn xA xB lift))
        (ratMean (lossColumn sig2A sig2B lift)))

/-- Spec-side reading of the simulation-mode expected loss, written from the
spec's words: the empirical mean, over the paired simulated draws, of
`max(other - self - lift, 0)`, componentwise in the location (first) and
dispersion (second) components.  Used to compare against the column-wise
computation of the source. -/
def specExpectedLossMC (draws_self draws_other : List (ℚ × ℚ)) (lift : ℚ) :
    ℚ × ℚ :=
  (ratMean ((draws_other.zip draws_self).map
     (fun p => max (p.1.1 - p.2.1 - lift) 0)),
   ratMean ((draws_other.zip draws_self).map
     (fun p => max (p.1.2 - p.2.2 - lift) 0)))

/-- Distribution parameters handed to the sampler by
`NormalInverseGammaModel.rvs`: the model's four posterior hyperparameters. -/
def posteriorParams (m : NormalInverseGammaModel) : NormalInverseGamma :=
  { loc := m.loc_posterior, variance_scale := m.variance_scale_posterior,
    shape := m.shape_posterior, scale := m.scale_posterior }

/-- Draws produced for one model inside a comparator call: the sampler applied
to the model's posterior parameters, the test's draw count and its seed. -/
def modelDraws (sampler : Sampler) (t : NormalInverseGammaABTest)
    (m : NormalInverseGammaModel) : List (ℚ × ℚ) :=
  sampler (posteriorParams m) t.simulations t.random_state

/-! ## Concrete fixtures used by witnesses -/

/-- Concrete numeric primitives for evaluating witnesses. -/
def constPrims : NumPrims :=
  { exp := id, log := id, gammaln := id, log_ndtr := id, ndtr := id,
    betainc := fun _ _ p => p, hypot := fun a b => a + b, sqrt := id }

/-- Concrete sampler ignoring its seed. -/
def constSampler : Sampler := fun _ n _ => List.replicate n (1, 2)

/-- Concrete sampler producing draws only under seed 7. -/
def seededSampler : Sampler :=
  fun _ n s => if s = some 7 then List.replicate n (1, 2) else []

/-- Concrete distribution with unit parameters (shape exactly 1). -/
def distOne : NormalInverseGamma :=
  { loc := 0, variance_scale := 1, shape := 1, scale := 1 }

/-- Concrete model with unit posterior hyperparameters. -/
def modelOne : NormalInverseGammaModel :=
  { loc_posterior := 1, variance_scale_posterior := 1, shape_posterior := 1,
    scale_posterior := 1 }

/-- Concrete A/B test over two copies of `modelOne`, two draws, seed 7. -/
def testOne : NormalInverseGammaABTest :=
  { modelA := modelOne, modelB := modelOne, simulations := 2,
    random_state := some 7 }

/-! ## Helper lemmas -/

theorem zipWith_eq_map_zip {α β γ : Type} (f : α → β → γ) (l₁ : List α)
    (l₂ : List β) :
    List.zipWith f l₁ l₂ = (l₁.zip l₂).map (fun p => f p.1 p.2) := by
  induction l₁ generalizing l₂ with
  | nil => simp
  | cons a l ih => cases l₂ <;> simp [ih]

theorem posteriorDist_of_valid (m : NormalInverseGammaModel) (h : m.valid) :
    m.posteriorDist = Except.ok (posteriorParams m) := by
  obtain ⟨h1, h2, h3⟩ := h
  simp [NormalInverseGammaModel.posteriorDist, NormalInverseGamma.make,
    posteriorParams, not_le.mpr h1, not_le.mpr h2, not_le.mpr h3]

theorem posteriorDist_ok_eq (m : NormalInverseGammaModel)
    (d : NormalInverseGamma) (h : m.posteriorDist = Except.ok d) :
    d = posteriorParams m := by
  unfold NormalInverseGammaModel.posteriorDist NormalInverseGamma.make at h
  split_ifs at h <;> simp_all [posteriorParams]

theorem rvs_congr (s₁ s₂ : Sampler) (m : NormalInverseGammaModel) (n : ℕ)
    (seed : Option ℕ)
    (h : s₁ (posteriorParams m) n seed = s₂ (posteriorParams m) n seed) :
    m.rvs s₁ n seed = m.rvs s₂ n seed := by
  cases hd : m.posteriorDist with
  | error e => simp [NormalInverseGammaModel.rvs, hd, Bind.bind, Except.bind]
  | ok d =>
    have hde := posteriorDist_ok_eq m d hd
    subst hde
    simp [NormalInverseGammaModel.rvs, hd, Bind.bind, Except.bind, h]

/-! ## Claims -/

/-- C9: for every argument tuple `(m, alpha, beta)`, the `BinomialModel`
constructor raises a `NameError`, because it passes the undefined name `neta`
(instead of `beta`) to the base-class constructor; no `BinomialModel`
instance can be constructed through it. -/
theorem binomial_init_raises_neta (m alpha beta : ℚ) :
    BinomialModel.init m alpha beta =
      Except.error (PyErr.nameError "neta") := by
  rfl

/-- C10: for every input `x` and every model whose posterior hyperparameters
satisfy the constructor's positivity invariant, `NormalInverseGammaModel.cdf`
raises a `NameError`: its body references the name `sig2`, which is neither
the parameter `x` nor `self` — the only names bound in the method scope. -/
theorem model_cdf_raises_sig2 (prims : NumPrims)
    (self : NormalInverseGammaModel) (x : ℚ) (h : self.valid) :
    self.cdf prims x = Except.error (PyErr.nameError "sig2") := by
  simp [NormalInverseGammaModel.cdf, posteriorDist_of_valid self h,
    Bind.bind, Except.bind, lookupNum, lookupName]

/-- Witness for C10 at the concrete model `modelOne` and input `x = 5`. -/
theorem model_cdf_raises_sig2_witness :
    modelOne.valid ∧
      modelOne.cdf constPrims 5 = Except.error (PyErr.nameError "sig2") :=
  ⟨by decide, model_cdf_raises_sig2 constPrims modelOne 5 (by decide)⟩

/-- C1: the claim says the exact-method `probability` with variant `A` and
lift 0 returns the pair of the standard normal CDF of the standardized
location difference and `betainc(aA, aB, bA / (bA + bB))`.  The code instead
raises `NameError` for every pair of models: the aggregate spread expression
`np.hypot(sigA, sigB)` references `sigA`, which is never assigned in the
method, so the documented return value is unreachable. -/
theorem probability_exact_A_raises_sigA (prims : NumPrims)
    (sampler : Sampler) (t : NormalInverseGammaABTest) :
    t.probability prims sampler Method.exact Variant.A 0 =
      Except.error (PyErr.nameError "sigA") := by
  rfl

/-- C2: for every variant and every positive lift, `probability` and
`expected_loss` with the exact method fail with `UnsupportedConfiguration`;
the result is the same for every sampler and every pair of models, showing
the validation decides the call before any sampling or computation. -/
theorem exact_with_lift_rejected (prims : NumPrims) (sampler : Sampler)
    (t : NormalInverseGammaABTest) (variant : Variant) (lift : ℚ)
    (h : 0 < lift) :
    t.probability prims sampler Method.exact variant lift =
        Except.error PyErr.unsupportedConfiguration ∧
      t.expected_loss sampler Method.exact variant lift =
        Except.error PyErr.unsupportedConfiguration := by
  have hc : check_ab_method Method.exact variant lift =
      Except.error PyErr.unsupportedConfiguration := by
    simp [check_ab_method, h]
  constructor <;>
    simp [NormalInverseGammaABTest.probability,
      NormalInverseGammaABTest.expected_loss, hc, Bind.bind, Except.bind]

/-- Witness for C2 at lift 1, variant A, the concrete test `testOne`. -/
theorem exact_with_lift_rejected_witness :
    (0 : ℚ) < 1 ∧
      (testOne.probability constPrims constSampler Method.exact Variant.A 1 =
          Except.error PyErr.unsupportedConfiguration ∧
        testOne.expected_loss constSampler Method.exact Variant.A 1 =
          Except.error PyErr.unsupportedConfiguration) :=
  ⟨by norm_num,
    exact_with_lift_rejected constPrims constSampler testOne Variant.A 1
      (by norm_num)⟩

/-- C3: for every data partition `D = D1 ++ D2` of binomial observations and
every `BinomialModel` state, updating with `D1` then `D2` yields the same
posterior hyperparameters as one update with `D`, since the update only adds
the sufficient statistics (sum of successes, and `m` times the batch length
minus the successes). -/
theorem update_additive (s : BinomialModel) (d1 d2 : List ℤ) :
    (s.update d1).update d2 = s.update (d1 ++ d2) := by
  simp only [BinomialModel.update, List.sum_append, List.length_append,
    BinomialModel.mk.injEq, true_and]
  refine ⟨?_, ?_⟩ <;> push_cast <;> ring

/-- C4 counterexample: at lift 0, variant A and the concrete test `testOne`,
the exact-method `expected_loss` returns `None` normally; it does not raise
`UnsupportedConfiguration` (nor any other exception). -/
theorem expected_loss_exact_stub_cex :
    testOne.expected_loss constSampler Method.exact Variant.A 0 =
      Except.ok PyRet.pyNone := by
  rfl

/-- C4 as amended: for every variant, every sampler and every pair of models,
`expected_loss` with the exact method and lift 0 silently returns `None` (the
variant dispatch consists of three `pass` statements and the function falls
off its end), rather than signalling the configuration as unsupported. -/
theorem expected_loss_exact_returns_none (sampler : Sampler)
    (t : NormalInverseGammaABTest) (variant : Variant) :
    t.expected_loss sampler Method.exact variant 0 =
      Except.ok PyRet.pyNone := by
  cases variant <;> rfl

/-- C6 counterexample: with `m = 3` trials, the batch `[5]` lies outside the
binomial support, yet `update` returns normally and moves the posterior
hyperparameters from `(1, 1)` to `(6, -1)` — it neither fails with
`InvalidInput` nor leaves the state unchanged. -/
theorem update_no_validation_cex :
    BinomialModel.update ⟨3, 1, 1⟩ [5] = ⟨3, 6, -1⟩ ∧
      BinomialModel.update ⟨3, 1, 1⟩ [5] ≠ ⟨3, 1, 1⟩ := by
  constructor <;> simp [BinomialModel.update, BinomialModel.mk.injEq] <;>
    norm_num

/-- C6 as amended: `update` performs no validation at all: it applies the
additive sufficient-statistic rule to any batch, so an empty batch leaves the
posterior hyperparameters unchanged, while a batch with out-of-support values
is incorporated into them rather than rejected. -/
theorem update_unconditional (s : BinomialModel) (data : List ℤ) :
    s.update [] = s ∧
      (s.update data).alpha_posterior =
        s.alpha_posterior + (data.sum : ℚ) ∧
      (s.update data).beta_posterior =
        s.beta_posterior + s.m * (data.length : ℚ) - (data.sum : ℚ) := by
  refine ⟨?_, rfl, rfl⟩
  simp [BinomialModel.update]

/-- C7: for every `NormalInverseGamma` distribution with valid (positive)
parameters, `mean` and `var` are total functions — no moment raises — and
return the NaN sentinel (`none`) exactly for the undefined moments: when
`shape ≤ 1` the `sig2` mean and the `x` variance are the sentinel, when
`shape ≤ 2` the `sig2` variance is the sentinel, while the defined components
are the closed-form values. -/
theorem nig_moments_sentinels (d : NormalInverseGamma)
    (hv : 0 < d.variance_scale) (hs : 0 < d.shape) (hc : 0 < d.scale) :
    d.mean.1 = d.loc ∧
      (d.shape ≤ 1 → d.mean.2 = none ∧ d.var.1 = none) ∧
      (1 < d.shape → d.mean.2 = some (d.scale / (d.shape - 1)) ∧
        d.var.1 = some (d.scale / (d.shape - 1) / d.variance_scale)) ∧
      (d.shape ≤ 2 → d.var.2 = none) ∧
      (2 < d.shape →
        d.var.2 = some (d.scale ^ 2 / (d.shape - 1) ^ 2 / (d.shape - 2))) := by
  refine ⟨rfl, fun h => ?_, fun h => ?_, fun h => ?_, fun h => ?_⟩
  · simp [NormalInverseGamma.mean, NormalInverseGamma.var, not_lt.mpr h]
  · simp [NormalInverseGamma.mean, NormalInverseGamma.var, h]
  · simp [NormalInverseGamma.var, not_lt.mpr h]
  · simp [NormalInverseGamma.var, h]

/-- Witness for C7 at the concrete distribution `distOne`, whose shape is
exactly 1, so both sentinel branches with threshold 1 and 2 are exercised. -/
theorem nig_moments_sentinels_witness :
    (0 : ℚ) < distOne.variance_scale ∧ (0 : ℚ) < distOne.shape ∧
      (0 : ℚ) < distOne.scale ∧
      (distOne.mean.1 = distOne.loc ∧
        (distOne.shape ≤ 1 → distOne.mean.2 = none ∧ distOne.var.1 = none) ∧
        (1 < distOne.shape →
          distOne.mean.2 = some (distOne.scale / (distOne.shape - 1)) ∧
          distOne.var.1 = some (distOne.scale / (distOne.shape - 1) /
            distOne.variance_scale)) ∧
        (distOne.shape ≤ 2 → distOne.var.2 = none) ∧
        (2 < distOne.shape →
          distOne.var.2 = some (distOne.scale ^ 2 / (distOne.shape - 1) ^ 2 /
            (distOne.shape - 2)))) :=
  ⟨by decide, by decide, by decide,
    nig_moments_sentinels distOne (by decide) (by decide) (by decide)⟩

/-- C5: for variants A and B and every lift at least 0, the simulation-mode
`expected_loss` returns, componentwise in the location and dispersion
components, the empirical mean over the paired draws of
`max(other - self - lift, 0)`, where `self` is the chosen variant's draw and
`other` the non-chosen one's — the column-wise source computation agrees with
the spec-side per-draw reading `specExpectedLossMC`. -/
theorem expected_loss_MC_matches_spec (sampler : Sampler)
    (t : NormalInverseGammaABTest) (lift : ℚ) (hl : 0 ≤ lift)
    (hA : t.modelA.valid) (hB : t.modelB.valid) :
    t.expected_loss sampler Method.MC Variant.A lift =
        Except.ok (PyRet.pair
          (specExpectedLossMC (modelDraws sampler t t.modelA)
            (modelDraws sampler t t.modelB) lift).1
          (specExpectedLossMC (modelDraws sampler t t.modelA)
            (modelDraws sampler t t.modelB) lift).2) ∧
      t.expected_loss sampler Method.MC Variant.B lift =
        Except.ok (PyRet.pair
          (specExpectedLossMC (modelDraws sampler t t.modelB)
            (modelDraws sampler t t.modelA) lift).1
          (specExpectedLossMC (modelDraws sampler t t.modelB)
            (modelDraws sampler t t.modelA) lift).2) := by
  have hdA := posteriorDist_of_valid t.modelA hA
  have hdB := posteriorDist_of_valid t.modelB hB
  constructor <;>
    simp [NormalInverseGammaABTest.expected_loss, check_ab_method,
      NormalInverseGammaModel.rvs, hdA, hdB, Bind.bind, Except.bind,
      Pure.pure, Except.pure, modelDraws, specExpectedLossMC, lossColumn,
      zipWith_eq_map_zip, List.zip_map, List.map_map, Function.comp_def,
      Prod.map_fst, Prod.map_snd]

/-- Witness for C5 at lift 0, the concrete test `testOne` and the concrete
sampler `constSampler`. -/
theorem expected_loss_MC_matches_spec_witness :
    (0 : ℚ) ≤ 0 ∧ testOne.modelA.valid ∧ testOne.modelB.valid ∧
      (testOne.expected_loss constSampler Method.MC Variant.A 0 =
          Except.ok (PyRet.pair
            (specExpectedLossMC
              (modelDraws constSampler testOne testOne.modelA)
              (modelDraws constSampler testOne testOne.modelB) 0).1
            (specExpectedLossMC
              (modelDraws constSampler testOne testOne.modelA)
              (modelDraws constSampler testOne testOne.modelB) 0).2) ∧
        testOne.expected_loss constSampler Method.MC Variant.B 0 =
          Except.ok (PyRet.pair
            (specExpectedLossMC
              (modelDraws constSampler testOne testOne.modelB)
              (modelDraws constSampler testOne testOne.modelA) 0).1
            (specExpectedLossMC
              (modelDraws constSampler testOne testOne.modelB)
              (modelDraws constSampler testOne testOne.modelA) 0).2)) :=
  ⟨le_refl 0, by decide, by decide,
    expected_loss_MC_matches_spec constSampler testOne 0 (le_refl 0)
      (by decide) (by decide)⟩

/-- C8: the simulation-mode `probability` and `expected_loss` are functions of
the pseudo-random source only through its output at the single seed
`t.random_state` (and draw count `t.simulations`) for each model: any two
deterministic samplers agreeing there — for model A and for model B, at the
same seed — give identical results.  In particular, since the source is a
deterministic function of the seed, two calls with identical arguments and
identical posterior state return identical results, and within one call the
same stored seed is passed to both models' draws. -/
theorem mc_reproducible_common_seed (prims : NumPrims) (s₁ s₂ : Sampler)
    (t : NormalInverseGammaABTest) (variant : Variant) (lift : ℚ)
    (hA : s₁ (posteriorParams t.modelA) t.simulations t.random_state =
      s₂ (posteriorParams t.modelA) t.simulations t.random_state)
    (hB : s₁ (posteriorParams t.modelB) t.simulations t.random_state =
      s₂ (posteriorParams t.modelB) t.simulations t.random_state) :
    t.probability prims s₁ Method.MC variant lift =
        t.probability prims s₂ Method.MC variant lift ∧
      t.expected_loss s₁ Method.MC variant lift =
        t.expected_loss s₂ Method.MC variant lift := by
  have h1 := rvs_congr s₁ s₂ t.modelA t.simulations t.random_state hA
  have h2 := rvs_congr s₁ s₂ t.modelB t.simulations t.random_state hB
  constructor <;>
    simp only [NormalInverseGammaABTest.probability,
      NormalInverseGammaABTest.expected_loss, h1, h2]

/-- Witness for C8: the seed-sensitive `seededSampler` and the seed-blind
`constSampler` agree at the stored seed 7 of `testOne`, so the comparator
results coincide. -/
theorem mc_reproducible_common_seed_witness :
    (seededSampler (posteriorParams testOne.modelA) testOne.simulations
        testOne.random_state =
      constSampler (posteriorParams testOne.modelA) testOne.simulations
        testOne.random_state) ∧
      (seededSampler (posteriorParams testOne.modelB) testOne.simulations
          testOne.random_state =
        constSampler (posteriorParams testOne.modelB) testOne.simulations
          testOne.random_state) ∧
      (testOne.probability constPrims seededSampler Method.MC Variant.A 0 =
          testOne.probability constPrims constSampler Method.MC Variant.A 0 ∧
        testOne.expected_loss seededSampler Method.MC Variant.A 0 =
          testOne.expected_loss constSampler Method.MC Variant.A 0) :=
  ⟨by rfl, by rfl,
    mc_reproducible_common_seed constPrims seededSampler constSampler testOne
      Variant.A 0 (by rfl) (by rfl)⟩

end CPrior
